import Mathlib

/-!
Shallow embedding of `pvanalytics/features/orientation.py` and proofs about it.

The module classifies days of a PV power/irradiance time series as matching a
tracking or a fixed-tilt profile.  Values are embedded as rationals, a
timezone-localized timestamp as a calendar-day index together with a
minute-of-day, and a pandas `Series` as a list of (timestamp, value) pairs
tagged with its timezone.  The external curve-fitting functions
(`_fit.quartic`, `_fit.quadratic`) and the frequency inference
(`pd.infer_freq`) are collaborators outside this module and appear as
parameters: a fit function maps a day's samples to a score, and the inferred
frequency is given as the parsed interval length in seconds.
-/

namespace Orientation

/-- A timezone-localized timestamp: the calendar-day index (in the series'
own timezone) and the minute of that day. -/
structure Ts where
  day : ℤ
  minute : ℕ
deriving DecidableEq

/-- A timezone-aware numeric series: its timezone tag and its
(timestamp, value) rows in index order. -/
structure Series where
  tz : ℤ
  rows : List (Ts × ℚ)
deriving DecidableEq

/-- A timezone-aware boolean series, the result type of the classifiers. -/
structure BSeries where
  tz : ℤ
  rows : List (Ts × Bool)
deriving DecidableEq

/-- Pandas `Series.mean()` over the values of a series: sum divided by
count.  The embedded series carry no missing values, so the count is the
length. -/
def mean (xs : List ℚ) : ℚ := xs.sum / xs.length

/-- Embeds `_filter_low(data, multiplier)`:
`positive_data = data[data > 0]` followed by
`positive_data[positive_data > multiplier * data.mean()]`.  Note the mean is
taken over the original `data`, not over `positive_data`. -/
def filter_low (data : List (Ts × ℚ)) (multiplier : ℚ) : List (Ts × ℚ) :=
  let positive_data := data.filter (fun r => decide (0 < r.2))
  positive_data.filter (fun r => decide (multiplier * mean (data.map Prod.snd) < r.2))

/-- Embeds `_fit_if(pred, fit_function, default=0.0)` applied to a day:
returns `fit_function(day)` when `pred(day)` holds, else `default`. -/
def fit_if (pred : List (Ts × ℚ) → Bool) (fit_function : List (Ts × ℚ) → ℚ)
    (default : ℚ) (day : List (Ts × ℚ)) : ℚ :=
  if pred day then fit_function day else default

/-- Embeds `_freqstr_to_hours(freq)`.  The pandas freqstr is represented by
the length in seconds of the parsed Timedelta (`pd.to_timedelta(freq).seconds`;
the `'1' + freq` normalization only affects string parsing).  The source
returns `seconds / 60`. -/
def freqstr_to_hours (freqSeconds : ℕ) : ℚ := (freqSeconds : ℚ) / 60

/-- Embeds `_hours(data, freq) = data.count() * _freqstr_to_hours(freq)`.
`data.count()` counts non-missing samples; the day groups reaching `_hours`
come out of `_filter_low`, which keeps no missing values, so the count is
the list length. -/
def hours (data : List (Ts × ℚ)) (freqSeconds : ℕ) : ℚ :=
  (data.length : ℚ) * freqstr_to_hours freqSeconds

/-- Modelled from the spec: `hoursOfData(day, intervalSpec) → float` =
(count of non-missing samples in day) × (interval length in hours).  An
interval of `freqSeconds` seconds lasts `freqSeconds / 3600` hours.  This is
the reference definition the source's `_hours` is compared against. -/
def hoursOfData_spec (data : List (Ts × ℚ)) (freqSeconds : ℕ) : ℚ :=
  (data.length : ℚ) * ((freqSeconds : ℚ) / 3600)

/-- A day of 60 samples at 5-minute spacing (freqstr `'5T'`, i.e. a
300-second interval): the failing input for the coverage estimate. -/
def c3_day : List (Ts × ℚ) := (List.range 60).map (fun i => (⟨0, 5 * i⟩, 1))

/-- C3: the coverage estimate that gates fitting should equal
(count of non-missing samples) × (interval length in hours), e.g. 5.0 for a
day of 60 samples at 5-minute spacing.  The source's `_hours` instead
multiplies the count by `pd.to_timedelta(freq).seconds / 60`, the interval
length in minutes, and returns 300.0 on that day — contradicting its own
comment ("Convert pandas freqstr to hours") and the docstring of
`min_hours` ("Minimum number of hours with data"). -/
theorem C3_hours_coverage_bug :
    hours c3_day 300 = 300 ∧ hoursOfData_spec c3_day 300 = 5 ∧
      hours c3_day 300 ≠ hoursOfData_spec c3_day 300 := by
  refine ⟨?_, ?_, ?_⟩ <;> norm_num [hours, hoursOfData_spec, freqstr_to_hours, c3_day]

/-- C9: `_filter_low` keeps exactly the samples that are strictly positive
and strictly exceed `multiplier` times the mean of the original unfiltered
input (non-positive samples included in that mean); the mean is not
recomputed after dropping the non-positive samples. -/
theorem C9_filter_low_keeps_exactly :
    ∀ (data : List (Ts × ℚ)) (multiplier : ℚ),
      filter_low data multiplier =
        data.filter (fun r =>
          decide (0 < r.2) && decide (multiplier * mean (data.map Prod.snd) < r.2)) := by
  intro data multiplier
  unfold filter_low
  rw [List.filter_filter]
  congr 1
  funext r
  exact Bool.and_comm _ _

/-- Embeds `Series.between_time(late_morning, early_afternoon)` on the rows:
keeps rows whose minute-of-day lies in the closed clock-time window
(pandas includes both endpoints by default, and wraps when the start time is
after the end time). -/
def between_time (data : List (Ts × ℚ)) (s e : ℕ) : List (Ts × ℚ) :=
  data.filter (fun r =>
    if s ≤ e then decide (s ≤ r.1.minute) && decide (r.1.minute ≤ e)
    else decide (s ≤ r.1.minute) || decide (r.1.minute ≤ e))

/-- Appends a key if it is not already present; used to collect group keys
in order of first appearance. -/
def insertKey (k : ℤ) (ks : List ℤ) : List ℤ :=
  if k ∈ ks then ks else ks ++ [k]

/-- The distinct calendar-day keys of `_group_by_day(data)` in order of
first appearance.  For the monotonic indexes the module requires, this is
ascending, which coincides with the sorted group keys pandas produces. -/
def dayKeys (data : List (Ts × ℚ)) : List ℤ :=
  data.foldl (fun ks r => insertKey r.1.day ks) []

/-- The rows of `data` falling on calendar day `k`: one group of
`_group_by_day(data)`. -/
def rowsOnDay (data : List (Ts × ℚ)) (k : ℤ) : List (Ts × ℚ) :=
  data.filter (fun r => decide (r.1.day = k))

/-- Embeds `_group_by_day(data)`: day-keyed groups, the key being the
date re-localized to the series' own timezone (represented by the day index
of `Ts`). -/
def group_by_day (data : List (Ts × ℚ)) : List (ℤ × List (Ts × ℚ)) :=
  (dayKeys data).map (fun k => (k, rowsOnDay data k))

/-- Embeds `day.max() >= reference` (pandas max over the day's values;
on an empty day the comparison with the missing max is false). -/
def maxGe (day : List (Ts × ℚ)) (reference : ℚ) : Bool :=
  match (day.map Prod.snd).max? with
  | some m => decide (reference ≤ m)
  | none => false

/-- The gating predicate both legs of `tracking` pass to `_fit_if`:
`_hours(day, freq) >= min_hours and day.max() >= positive_mean`. -/
def tracking_gate (freqSeconds : ℕ) (min_hours positive_mean : ℚ)
    (day : List (Ts × ℚ)) : Bool :=
  decide (min_hours ≤ hours day freqSeconds) && maxGe day positive_mean

/-- The gating predicate `fixed` passes to `_fit_if`:
`_hours(day, freq) >= min_hours` (no peak condition). -/
def fixed_gate (freqSeconds : ℕ) (min_hours : ℚ) (day : List (Ts × ℚ)) : Bool :=
  decide (min_hours ≤ hours day freqSeconds)

/-- The per-day combination at the end of `tracking`:
`(tracking > correlation_min) & (tracking > fixed) & (fixed < fixed_max)`. -/
def decide_day (t f correlation_min fixed_max : ℚ) : Bool :=
  decide (correlation_min < t) && decide (f < t) && decide (f < fixed_max)

/-- The per-day combination at the end of `fixed`: `fixed > correlation_min`. -/
def fixed_decide (f correlation_min : ℚ) : Bool :=
  decide (correlation_min < f)

/-- Embeds `.reindex(index, method='pad', fill_value=False)` looked up at
day `d` of an original timestamp: the value of the last listed day key that
is `≤ d` (the group keys are day starts, so a key is at-or-before a
timestamp exactly when it is `≤` the timestamp's day), and the fill value
`False` when no key is at-or-before it. -/
def padLookup (perDay : List (ℤ × Bool)) (d : ℤ) : Bool :=
  perDay.foldl (fun a kv => if kv.1 ≤ d then kv.2 else a) false

/-- `power_or_irradiance[power_or_irradiance > 0].mean()` in `tracking`. -/
def positiveMean (s : Series) : ℚ :=
  mean ((s.rows.filter (fun r => decide (0 < r.2))).map Prod.snd)

/-- `high_data = _filter_low(power_or_irradiance[daytime], power_min)`:
the daytime-masked rows passed through the low-value filter. -/
def maskedHigh (s : Series) (daytime : Ts → Bool) (power_min : ℚ) :
    List (Ts × ℚ) :=
  filter_low (s.rows.filter (fun r => daytime r.1)) power_min

/-- The quartic leg of `tracking` for day `k`: the conditional fit of the
external quartic over the day's rows of `high_data`. -/
def trackingDayScore (quartic : List (Ts × ℚ) → ℚ) (s : Series)
    (daytime : Ts → Bool) (freqSeconds : ℕ) (min_hours power_min : ℚ)
    (k : ℤ) : ℚ :=
  fit_if (tracking_gate freqSeconds min_hours (positiveMean s)) quartic 0
    (rowsOnDay (maskedHigh s daytime power_min) k)

/-- The quadratic leg of `tracking` for day `k`: the conditional fit of the
external quadratic over the day's rows of
`high_data.between_time(late_morning, early_afternoon)`. -/
def trackingWindowScore (quadratic : List (Ts × ℚ) → ℚ) (s : Series)
    (daytime : Ts → Bool) (freqSeconds : ℕ) (min_hours power_min : ℚ)
    (late_morning early_afternoon : ℕ) (k : ℤ) : ℚ :=
  fit_if (tracking_gate freqSeconds min_hours (positiveMean s)) quadratic 0
    (rowsOnDay (between_time (maskedHigh s daytime power_min)
      late_morning early_afternoon) k)

/-- The per-day boolean series built at the end of `tracking`, keyed by the
quartic leg's group keys (well-defined once the two legs' keys coincide;
otherwise the pandas comparison raises, see `tracking`). -/
def trackingDayLabels (quartic quadratic : List (Ts × ℚ) → ℚ) (s : Series)
    (daytime : Ts → Bool) (freqSeconds : ℕ)
    (correlation_min fixed_max min_hours power_min : ℚ)
    (late_morning early_afternoon : ℕ) : List (ℤ × Bool) :=
  (dayKeys (maskedHigh s daytime power_min)).map (fun k =>
    (k, decide_day
      (trackingDayScore quartic s daytime freqSeconds min_hours power_min k)
      (trackingWindowScore quadratic s daytime freqSeconds min_hours power_min
        late_morning early_afternoon k)
      correlation_min fixed_max))

/-- Embeds `tracking(power_or_irradiance, daytime, ...)`.  The external
collaborators appear as parameters: `quartic` and `quadratic` are the fit
functions and `freqSeconds` the interval inferred from the index.  When the
two legs' day-score series do not carry identical group keys the pandas
comparison `tracking > fixed` raises; this is the error branch. -/
def tracking (quartic quadratic : List (Ts × ℚ) → ℚ) (s : Series)
    (daytime : Ts → Bool) (freqSeconds : ℕ)
    (correlation_min fixed_max min_hours power_min : ℚ)
    (late_morning early_afternoon : ℕ) : Except String BSeries :=
  if dayKeys (maskedHigh s daytime power_min)
      = dayKeys (between_time (maskedHigh s daytime power_min)
          late_morning early_afternoon) then
    .ok ⟨s.tz, s.rows.map (fun r =>
      (r.1, padLookup
        (trackingDayLabels quartic quadratic s daytime freqSeconds
          correlation_min fixed_max min_hours power_min
          late_morning early_afternoon)
        r.1.day))⟩
  else
    .error "Can only compare identically-labeled Series objects"

/-- The quadratic fit of `fixed` for day `k`: the conditional fit over the
whole day's rows of the filtered data (no clock-time window). -/
def fixedDayScore (quadratic : List (Ts × ℚ) → ℚ) (s : Series)
    (daytime : Ts → Bool) (freqSeconds : ℕ) (min_hours power_min : ℚ)
    (k : ℤ) : ℚ :=
  fit_if (fixed_gate freqSeconds min_hours) quadratic 0
    (rowsOnDay (maskedHigh s daytime power_min) k)

/-- The per-day boolean series built at the end of `fixed`. -/
def fixedDayLabels (quadratic : List (Ts × ℚ) → ℚ) (s : Series)
    (daytime : Ts → Bool) (freqSeconds : ℕ)
    (correlation_min min_hours power_min : ℚ) : List (ℤ × Bool) :=
  (dayKeys (maskedHigh s daytime power_min)).map (fun k =>
    (k, fixed_decide
      (fixedDayScore quadratic s daytime freqSeconds min_hours power_min k)
      correlation_min))

/-- Embeds `fixed(power_or_irradiance, daytime, ...)`. -/
def fixed (quadratic : List (Ts × ℚ) → ℚ) (s : Series) (daytime : Ts → Bool)
    (freqSeconds : ℕ) (correlation_min min_hours power_min : ℚ) : BSeries :=
  ⟨s.tz, s.rows.map (fun r =>
    (r.1, padLookup
      (fixedDayLabels quadratic s daytime freqSeconds correlation_min
        min_hours power_min)
      r.1.day))⟩

/-- Default `correlation_min` of both classifiers. -/
def correlation_min_default : ℚ := 94 / 100

/-- Default `fixed_max` of `tracking`. -/
def fixed_max_default : ℚ := 96 / 100

/-- Default `min_hours` of both classifiers. -/
def min_hours_default : ℚ := 5

/-- Default `power_min` of `tracking`. -/
def tracking_power_min_default : ℚ := 1 / 10

/-- Default `power_min` of `fixed` (the signature default `0.4`). -/
def fixed_power_min_default : ℚ := 4 / 10

/-- Default `late_morning` of `tracking`, 08:45 as a minute of day. -/
def late_morning_default : ℕ := 525

/-- Default `early_afternoon` of `tracking`, 17:15 as a minute of day. -/
def early_afternoon_default : ℕ := 1035

/-- Exception-sensitive embedding of `_fit_if`: the returned closure has no
handler around `fit_function(day)`, so a failure raised by the external fit
is the closure's own outcome; the default is produced only on the gate's
else-branch. -/
def fit_ifE (pred : List (Ts × ℚ) → Bool)
    (fit_function : List (Ts × ℚ) → Except String ℚ) (default : ℚ)
    (day : List (Ts × ℚ)) : Except String ℚ :=
  if pred day then fit_function day else .ok default

/-- Exception-sensitive embedding of `GroupBy.apply(f)` over the day groups:
the groups are visited in order and the first failure raised by `f` aborts
the whole application with that failure; only if every group succeeds does a
complete per-day result come back. -/
def applyDaysE (f : List (Ts × ℚ) → Except String ℚ) :
    List (ℤ × List (Ts × ℚ)) → Except String (List (ℤ × ℚ))
  | [] => .ok []
  | (k, g) :: rest =>
    match f g with
    | .error e => .error e
    | .ok v =>
      match applyDaysE f rest with
      | .error e => .error e
      | .ok vs => .ok ((k, v) :: vs)

theorem mem_map_pair {α β : Type} (keys : List α) (f : α → β) (k : α) (b : β) :
    (k, b) ∈ keys.map (fun x => (x, f x)) ↔ k ∈ keys ∧ b = f k := by
  constructor
  · intro h
    rcases List.mem_map.mp h with ⟨a, ha, heq⟩
    cases heq
    exact ⟨ha, rfl⟩
  · rintro ⟨hk, rfl⟩
    exact List.mem_map.mpr ⟨k, hk, rfl⟩

/-- C1: a day with quartic (tracking) leg score `t` and windowed quadratic
(fixed) leg score `f` is labeled tracking exactly when `t > correlation_min`
and `t > f` and `f < fixed_max`; in particular `f ≥ fixed_max` forces the
label `False` however high `t` is. -/
theorem C1_tracking_decision_rule :
    ∀ (quartic quadratic : List (Ts × ℚ) → ℚ) (s : Series)
      (daytime : Ts → Bool) (freqSeconds : ℕ)
      (correlation_min fixed_max min_hours power_min : ℚ)
      (late_morning early_afternoon : ℕ) (k : ℤ),
      (k, true) ∈ trackingDayLabels quartic quadratic s daytime freqSeconds
          correlation_min fixed_max min_hours power_min
          late_morning early_afternoon
        ↔ (k ∈ dayKeys (maskedHigh s daytime power_min)
            ∧ correlation_min
                < trackingDayScore quartic s daytime freqSeconds min_hours
                    power_min k
            ∧ trackingWindowScore quadratic s daytime freqSeconds min_hours
                  power_min late_morning early_afternoon k
                < trackingDayScore quartic s daytime freqSeconds min_hours
                    power_min k
            ∧ trackingWindowScore quadratic s daytime freqSeconds min_hours
                  power_min late_morning early_afternoon k
                < fixed_max) := by
  intro quartic quadratic s daytime freqSeconds cm fm mh pm lm ea k
  rw [trackingDayLabels, mem_map_pair]
  have hD : (true = decide_day
      (trackingDayScore quartic s daytime freqSeconds mh pm k)
      (trackingWindowScore quadratic s daytime freqSeconds mh pm lm ea k)
      cm fm)
      ↔ (cm < trackingDayScore quartic s daytime freqSeconds mh pm k
          ∧ trackingWindowScore quadratic s daytime freqSeconds mh pm lm ea k
              < trackingDayScore quartic s daytime freqSeconds mh pm k
          ∧ trackingWindowScore quadratic s daytime freqSeconds mh pm lm ea k
              < fm) := by
    rw [eq_comm]
    simp [decide_day, Bool.and_eq_true, decide_eq_true_eq, and_assoc]
  rw [hD]

/-- C5: the fixed classifier labels a day `True` exactly when the
conditional quadratic fit score of the whole day's filtered samples is
strictly greater than `correlation_min`, and its default low-value filter
multiplier is 0.4. -/
theorem C5_fixed_decision_rule :
    (∀ f correlation_min : ℚ,
      fixed_decide f correlation_min = true ↔ correlation_min < f)
    ∧ (∀ (quadratic : List (Ts × ℚ) → ℚ) (s : Series) (daytime : Ts → Bool)
        (freqSeconds : ℕ) (correlation_min min_hours power_min : ℚ) (k : ℤ),
        (k, true) ∈ fixedDayLabels quadratic s daytime freqSeconds
            correlation_min min_hours power_min
          ↔ (k ∈ dayKeys (maskedHigh s daytime power_min)
              ∧ correlation_min
                  < fixedDayScore quadratic s daytime freqSeconds min_hours
                      power_min k))
    ∧ fixed_power_min_default = 4 / 10 := by
  refine ⟨?_, ?_, rfl⟩
  · intro f cm
    simp [fixed_decide]
  · intro quadratic s daytime freqSeconds cm mh pm k
    rw [fixedDayLabels, mem_map_pair]
    have hD : (true = fixed_decide
        (fixedDayScore quadratic s daytime freqSeconds mh pm k) cm)
        ↔ cm < fixedDayScore quadratic s daytime freqSeconds mh pm k := by
      rw [eq_comm]
      simp [fixed_decide]
    rw [hD]

/-- C4: the conditional fit evaluator of `tracking` invokes the external
fit exactly when the coverage estimate is `≥ min_hours` (inclusive) and the
day's max reaches the reference level; otherwise it returns the default
score without using the fit function at all (the result is the default for
every fit function). -/
theorem C4_conditional_fit_gate :
    ∀ (freqSeconds : ℕ) (min_hours positive_mean : ℚ)
      (day : List (Ts × ℚ)) (fitFn : List (Ts × ℚ) → ℚ) (d : ℚ),
      (tracking_gate freqSeconds min_hours positive_mean day = true
        ↔ (min_hours ≤ hours day freqSeconds
            ∧ maxGe day positive_mean = true))
      ∧ (tracking_gate freqSeconds min_hours positive_mean day = true →
          fit_if (tracking_gate freqSeconds min_hours positive_mean) fitFn d
            day = fitFn day)
      ∧ (tracking_gate freqSeconds min_hours positive_mean day = false →
          ∀ g : List (Ts × ℚ) → ℚ,
            fit_if (tracking_gate freqSeconds min_hours positive_mean) g d
              day = d) := by
  intro freqSeconds mh pm day fitFn d
  refine ⟨?_, ?_, ?_⟩
  · simp [tracking_gate, Bool.and_eq_true, decide_eq_true_eq]
  · intro h
    simp [fit_if, h]
  · intro h g
    simp [fit_if, h]

/-- C8: when a gated day's external fit fails, the conditional evaluator
propagates that failure (it never converts it into the default score), and
the group-wise application containing that day yields no result list at
all. -/
theorem C8_fit_failure_propagates :
    (∀ (pred : List (Ts × ℚ) → Bool)
        (fitFn : List (Ts × ℚ) → Except String ℚ) (d : ℚ)
        (g : List (Ts × ℚ)) (e : String),
        pred g = true → fitFn g = .error e → fit_ifE pred fitFn d g = .error e)
    ∧ (∀ (pred : List (Ts × ℚ) → Bool)
        (fitFn : List (Ts × ℚ) → Except String ℚ) (d : ℚ)
        (days : List (ℤ × List (Ts × ℚ))) (k : ℤ) (g : List (Ts × ℚ))
        (e : String),
        (k, g) ∈ days → pred g = true → fitFn g = .error e →
        ∀ out, applyDaysE (fit_ifE pred fitFn d) days ≠ .ok out) := by
  have h1 : ∀ (pred : List (Ts × ℚ) → Bool)
      (fitFn : List (Ts × ℚ) → Except String ℚ) (d : ℚ)
      (g : List (Ts × ℚ)) (e : String),
      pred g = true → fitFn g = .error e →
      fit_ifE pred fitFn d g = .error e := by
    intro pred fitFn d g e hp hf
    simp [fit_ifE, hp, hf]
  refine ⟨h1, ?_⟩
  intro pred fitFn d days
  induction days with
  | nil =>
      intro k g e hmem
      cases hmem
  | cons hd tl ih =>
      intro k g e hmem hp hf out hok
      obtain ⟨k', g'⟩ := hd
      rcases List.mem_cons.mp hmem with heq | htl
      · obtain ⟨hk, hg⟩ := Prod.mk.injEq .. ▸ heq
        subst hg
        rw [applyDaysE, h1 pred fitFn d g e hp hf] at hok
        cases hok
      · rw [applyDaysE] at hok
        rcases hfe : fit_ifE pred fitFn d g' with e' | v
        · rw [hfe] at hok
          cases hok
        · rw [hfe] at hok
          rcases happ : applyDaysE (fit_ifE pred fitFn d) tl with e' | vs
          · rw [happ] at hok
            cases hok
          · exact ih k g e htl hp hf vs happ

/-- C6: both classifiers return a boolean series on exactly the input's
index: same timezone and same timestamps in the same order (for `tracking`,
whenever it returns a series at all). -/
theorem C6_index_alignment :
    (∀ (quartic quadratic : List (Ts × ℚ) → ℚ) (s : Series)
        (daytime : Ts → Bool) (freqSeconds : ℕ)
        (correlation_min fixed_max min_hours power_min : ℚ)
        (late_morning early_afternoon : ℕ) (res : BSeries),
        tracking quartic quadratic s daytime freqSeconds correlation_min
            fixed_max min_hours power_min late_morning early_afternoon
          = .ok res →
        res.tz = s.tz ∧ res.rows.map Prod.fst = s.rows.map Prod.fst)
    ∧ (∀ (quadratic : List (Ts × ℚ) → ℚ) (s : Series) (daytime : Ts → Bool)
        (freqSeconds : ℕ) (correlation_min min_hours power_min : ℚ),
        (fixed quadratic s daytime freqSeconds correlation_min min_hours
            power_min).tz = s.tz
        ∧ (fixed quadratic s daytime freqSeconds correlation_min min_hours
            power_min).rows.map Prod.fst = s.rows.map Prod.fst) := by
  constructor
  · intro quartic quadratic s daytime freqSeconds cm fm mh pm lm ea res h
    rw [tracking] at h
    split at h
    · cases h
      refine ⟨rfl, ?_⟩
      simp [List.map_map, Function.comp]
    · cases h
  · intro quadratic s daytime freqSeconds cm mh pm
    refine ⟨rfl, ?_⟩
    simp [fixed, List.map_map, Function.comp]

/-- C6 witness: on a concrete input `tracking` returns a series, and its
index data agree with the input's. -/
theorem C6_index_alignment_witness :
    tracking (fun _ => 0) (fun _ => 0) (⟨0, []⟩ : Series) (fun _ => true)
        3600 (94 / 100) (96 / 100) 5 (1 / 10) 525 1035
      = .ok (⟨0, []⟩ : BSeries)
    ∧ ((⟨0, []⟩ : BSeries).tz = (⟨0, []⟩ : Series).tz
        ∧ (⟨0, []⟩ : BSeries).rows.map Prod.fst
            = (⟨0, []⟩ : Series).rows.map Prod.fst) := by
  have h : tracking (fun _ => 0) (fun _ => 0) (⟨0, []⟩ : Series)
      (fun _ => true) 3600 (94 / 100) (96 / 100) 5 (1 / 10) 525 1035
        = .ok (⟨0, []⟩ : BSeries) := rfl
  exact ⟨h, C6_index_alignment.1 _ _ _ _ _ _ _ _ _ _ _ _ h⟩

/-- Two days at hourly spacing: day 1 peaks at 4, day 2 peaks at 3, below
the series' positive mean 7/2.  Used to show `fixed` fits days that
`tracking`'s peak condition would reject. -/
def c10_series : Series :=
  ⟨0, [(⟨1, 600⟩, 4), (⟨1, 660⟩, 4), (⟨1, 720⟩, 4),
       (⟨2, 600⟩, 3), (⟨2, 660⟩, 3), (⟨2, 720⟩, 3)]⟩

/-- C10: the gate of `fixed` is only the coverage condition — it depends on
a day's data through the sample count alone, and holds exactly when the
coverage estimate is `≥ min_hours` — whereas `tracking`'s gate fails
whenever the day max misses the reference level; concretely, `fixed` labels
`True` a day whose max (3) stays below the series' positive mean (7/2). -/
theorem C10_fixed_gate_no_peak :
    (∀ (freqSeconds : ℕ) (min_hours : ℚ) (g g' : List (Ts × ℚ)),
        g.length = g'.length →
        fixed_gate freqSeconds min_hours g
          = fixed_gate freqSeconds min_hours g')
    ∧ (∀ (freqSeconds : ℕ) (min_hours : ℚ) (g : List (Ts × ℚ)),
        fixed_gate freqSeconds min_hours g = true
          ↔ min_hours ≤ hours g freqSeconds)
    ∧ (∀ (freqSeconds : ℕ) (min_hours positive_mean : ℚ)
        (g : List (Ts × ℚ)),
        maxGe g positive_mean = false →
        tracking_gate freqSeconds min_hours positive_mean g = false)
    ∧ (maxGe (rowsOnDay (maskedHigh c10_series (fun _ => true) (4 / 10)) 2)
          (positiveMean c10_series) = false
        ∧ (⟨⟨2, 600⟩, true⟩ : Ts × Bool)
            ∈ (fixed (fun _ => (95 / 100 : ℚ)) c10_series (fun _ => true)
                3600 (94 / 100) 5 (4 / 10)).rows) := by
  refine ⟨?_, ?_, ?_, ?_, ?_⟩
  · intro freqSeconds mh g g' hlen
    simp [fixed_gate, hours, hlen]
  · intro freqSeconds mh g
    simp [fixed_gate]
  · intro freqSeconds mh pm g hmax
    simp [tracking_gate, hmax]
  · norm_num [maxGe, rowsOnDay, maskedHigh, filter_low, mean, positiveMean,
      c10_series, List.filter, List.max?, List.foldl, max_def]
  · norm_num [fixed, fixedDayLabels, fixedDayScore, fit_if, fixed_gate,
      fixed_decide, hours, freqstr_to_hours, padLookup, dayKeys, insertKey,
      rowsOnDay, maskedHigh, filter_low, mean, positiveMean, c10_series,
      List.filter, List.foldl]

/-- C10 witness: a concrete day whose max misses the reference level, on
which the tracking gate indeed fails. -/
theorem C10_fixed_gate_no_peak_witness :
    maxGe [((⟨0, 0⟩ : Ts), (1 : ℚ))] 100 = false
    ∧ tracking_gate 3600 5 100 [((⟨0, 0⟩ : Ts), (1 : ℚ))] = false := by
  have h : maxGe [((⟨0, 0⟩ : Ts), (1 : ℚ))] 100 = false := by
    norm_num [maxGe, List.max?]
  exact ⟨h, C10_fixed_gate_no_peak.2.2.1 3600 5 100 _ h⟩

theorem padFold_all_gt :
    ∀ (l : List (ℤ × Bool)) (d : ℤ) (a : Bool), (∀ kv ∈ l, d < kv.1) →
      l.foldl (fun a kv => if kv.1 ≤ d then kv.2 else a) a = a := by
  intro l
  induction l with
  | nil => intro d a _; rfl
  | cons x xs ih =>
      intro d a h
      rw [List.foldl_cons]
      have hx : d < x.1 := h x (List.mem_cons_self _ _)
      rw [if_neg (not_le.mpr hx)]
      exact ih d a (fun kv hkv => h kv (List.mem_cons_of_mem _ hkv))

/-- Two days: every sample of day 2 is `≤ 0` (removed wholesale by the
low-value filter) while day 1 classifies `True`. -/
def c2_series : Series :=
  ⟨0, [(⟨1, 600⟩, 10), (⟨1, 660⟩, 10), (⟨1, 720⟩, 10),
       (⟨2, 600⟩, 0), (⟨2, 660⟩, 0), (⟨2, 720⟩, 0)]⟩

/-- C2 counterexample: in `c2_series` day 2's samples are all `≤ 0`, so the
low-value filter removes the whole day and it is absent from the grouped
result; yet both classifiers return `True` on every timestamp of day 2,
because `method='pad'` forward-fills day 1's `True` across the absent day —
`fill_value=False` is only reached before the first grouped day. -/
theorem C2_default_false_counterexample :
    tracking (fun _ => (95 / 100 : ℚ)) (fun _ => (1 / 2 : ℚ)) c2_series
        (fun _ => true) 3600 (94 / 100) (96 / 100) 5 (1 / 10) 525 1035
      = .ok ⟨0, [(⟨1, 600⟩, true), (⟨1, 660⟩, true), (⟨1, 720⟩, true),
                 (⟨2, 600⟩, true), (⟨2, 660⟩, true), (⟨2, 720⟩, true)]⟩
    ∧ (⟨⟨2, 600⟩, true⟩ : Ts × Bool)
        ∈ (fixed (fun _ => (95 / 100 : ℚ)) c2_series (fun _ => true) 3600
            (94 / 100) 5 (4 / 10)).rows := by
  constructor
  · norm_num [tracking, trackingDayLabels, trackingDayScore,
      trackingWindowScore, tracking_gate, maxGe, fit_if, decide_day, hours,
      freqstr_to_hours, padLookup, dayKeys, insertKey, rowsOnDay, maskedHigh,
      filter_low, mean, positiveMean, between_time, c2_series, List.filter,
      List.foldl, List.max?, max_def]
  · norm_num [fixed, fixedDayLabels, fixedDayScore, fit_if, fixed_gate,
      fixed_decide, hours, freqstr_to_hours, padLookup, dayKeys, insertKey,
      rowsOnDay, maskedHigh, filter_low, mean, positiveMean, c2_series,
      List.filter, List.foldl]

/-- C2 amended: each timestamp receives the forward-filled (`pad`) label of
the most recent grouped day at-or-before it, and `False` only when no
grouped day is at-or-before it.  Hence a day fully removed by the low-value
filter yields `False` for its timestamps exactly when it precedes every
grouped day; a removed day lying after a grouped day inherits that day's
label — `True` when it lies between `True` days. -/
theorem C2_default_false_amended :
    (∀ (quartic quadratic : List (Ts × ℚ) → ℚ) (s : Series)
        (daytime : Ts → Bool) (freqSeconds : ℕ)
        (correlation_min fixed_max min_hours power_min : ℚ)
        (late_morning early_afternoon : ℕ) (res : BSeries) (ts : Ts)
        (b : Bool),
        tracking quartic quadratic s daytime freqSeconds correlation_min
            fixed_max min_hours power_min late_morning early_afternoon
          = .ok res →
        (ts, b) ∈ res.rows →
        b = padLookup
              (trackingDayLabels quartic quadratic s daytime freqSeconds
                correlation_min fixed_max min_hours power_min late_morning
                early_afternoon)
              ts.day)
    ∧ (∀ (quadratic : List (Ts × ℚ) → ℚ) (s : Series) (daytime : Ts → Bool)
        (freqSeconds : ℕ) (correlation_min min_hours power_min : ℚ)
        (ts : Ts) (b : Bool),
        (ts, b) ∈ (fixed quadratic s daytime freqSeconds correlation_min
            min_hours power_min).rows →
        b = padLookup
              (fixedDayLabels quadratic s daytime freqSeconds
                correlation_min min_hours power_min)
              ts.day)
    ∧ (∀ (perDay : List (ℤ × Bool)) (d : ℤ),
        (∀ kv ∈ perDay, d < kv.1) → padLookup perDay d = false)
    ∧ (∀ (pre post : List (ℤ × Bool)) (k : ℤ) (bk : Bool) (d : ℤ),
        k ≤ d → (∀ kv ∈ post, d < kv.1) →
        padLookup (pre ++ (k, bk) :: post) d = bk) := by
  refine ⟨?_, ?_, ?_, ?_⟩
  · intro quartic quadratic s daytime freqSeconds cm fm mh pm lm ea res ts b
      h hmem
    rw [tracking] at h
    split at h
    · cases h
      rcases List.mem_map.mp hmem with ⟨r, _, heq⟩
      injection heq with hts hpad
      rw [← hts]
      exact hpad.symm
    · cases h
  · intro quadratic s daytime freqSeconds cm mh pm ts b hmem
    rcases List.mem_map.mp hmem with ⟨r, _, heq⟩
    injection heq with hts hpad
    rw [← hts]
    exact hpad.symm
  · intro perDay d h
    exact padFold_all_gt perDay d false h
  · intro pre post k bk d hk hpost
    rw [padLookup, List.foldl_append, List.foldl_cons, if_pos hk]
    exact padFold_all_gt post d bk hpost

/-- C2 amended witness: a day key strictly after the timestamp's day leaves
the fill value `False` in place. -/
theorem C2_default_false_amended_witness :
    (∀ kv ∈ [((5 : ℤ), true)], (2 : ℤ) < kv.1)
    ∧ padLookup [((5 : ℤ), true)] 2 = false := by
  exact ⟨by decide, C2_default_false_amended.2.2.1 [((5 : ℤ), true)] 2
    (by decide)⟩

theorem padFold_mono :
    ∀ (keys : List ℤ) (g1 g2 : ℤ → Bool) (d : ℤ) (a1 a2 : Bool),
      (a2 = true → a1 = true) → (∀ k, g2 k = true → g1 k = true) →
      (keys.map (fun k => (k, g2 k))).foldl
          (fun a kv => if kv.1 ≤ d then kv.2 else a) a2 = true →
      (keys.map (fun k => (k, g1 k))).foldl
          (fun a kv => if kv.1 ≤ d then kv.2 else a) a1 = true := by
  intro keys
  induction keys with
  | nil => intro g1 g2 d a1 a2 hacc _ h; exact hacc h
  | cons x xs ih =>
      intro g1 g2 d a1 a2 hacc hg h
      rw [List.map_cons, List.foldl_cons] at h ⊢
      by_cases hx : x ≤ d
      · rw [if_pos hx] at h ⊢
        exact ih g1 g2 d (g1 x) (g2 x) (hg x) hg h
      · rw [if_neg hx] at h ⊢
        exact ih g1 g2 d a1 a2 hacc hg h

theorem padLookup_mono (keys : List ℤ) (g1 g2 : ℤ → Bool) (d : ℤ)
    (hg : ∀ k, g2 k = true → g1 k = true)
    (h : padLookup (keys.map (fun k => (k, g2 k))) d = true) :
    padLookup (keys.map (fun k => (k, g1 k))) d = true :=
  padFold_mono keys g1 g2 d false false (fun hf => hf) hg h

theorem decide_day_mono (t f c1 c2 fixed_max : ℚ) (h12 : c1 ≤ c2)
    (h : decide_day t f c2 fixed_max = true) :
    decide_day t f c1 fixed_max = true := by
  simp only [decide_day, Bool.and_eq_true, decide_eq_true_eq] at h ⊢
  exact ⟨⟨lt_of_le_of_lt h12 h.1.1, h.1.2⟩, h.2⟩

theorem fixed_decide_mono (f c1 c2 : ℚ) (h12 : c1 ≤ c2)
    (h : fixed_decide f c2 = true) : fixed_decide f c1 = true := by
  simp only [fixed_decide, decide_eq_true_eq] at h ⊢
  exact lt_of_le_of_lt h12 h

/-- C7: lowering `correlation_min` (all other inputs fixed) can only keep
or add `True` labels: any timestamp labeled `True` at the larger threshold
is labeled `True` at the smaller one, for both classifiers. -/
theorem C7_correlation_min_monotone :
    (∀ (quartic quadratic : List (Ts × ℚ) → ℚ) (s : Series)
        (daytime : Ts → Bool) (freqSeconds : ℕ)
        (c1 c2 fixed_max min_hours power_min : ℚ)
        (late_morning early_afternoon : ℕ) (res1 res2 : BSeries) (ts : Ts),
        c1 ≤ c2 →
        tracking quartic quadratic s daytime freqSeconds c2 fixed_max
            min_hours power_min late_morning early_afternoon = .ok res2 →
        tracking quartic quadratic s daytime freqSeconds c1 fixed_max
            min_hours power_min late_morning early_afternoon = .ok res1 →
        (ts, true) ∈ res2.rows → (ts, true) ∈ res1.rows)
    ∧ (∀ (quadratic : List (Ts × ℚ) → ℚ) (s : Series) (daytime : Ts → Bool)
        (freqSeconds : ℕ) (c1 c2 min_hours power_min : ℚ) (ts : Ts),
        c1 ≤ c2 →
        (ts, true) ∈ (fixed quadratic s daytime freqSeconds c2 min_hours
            power_min).rows →
        (ts, true) ∈ (fixed quadratic s daytime freqSeconds c1 min_hours
            power_min).rows) := by
  constructor
  · intro quartic quadratic s daytime freqSeconds c1 c2 fm mh pm lm ea res1
      res2 ts h12 h2 h1 hmem
    by_cases hc : dayKeys (maskedHigh s daytime pm)
        = dayKeys (between_time (maskedHigh s daytime pm) lm ea)
    · rw [tracking, if_pos hc] at h2 h1
      cases h2
      cases h1
      rcases List.mem_map.mp hmem with ⟨r, hr, heq⟩
      injection heq with hts hpad
      refine List.mem_map.mpr ⟨r, hr, ?_⟩
      rw [trackingDayLabels] at hpad
      have hmono := padLookup_mono (dayKeys (maskedHigh s daytime pm))
        (fun k => decide_day
          (trackingDayScore quartic s daytime freqSeconds mh pm k)
          (trackingWindowScore quadratic s daytime freqSeconds mh pm lm ea k)
          c1 fm)
        (fun k => decide_day
          (trackingDayScore quartic s daytime freqSeconds mh pm k)
          (trackingWindowScore quadratic s daytime freqSeconds mh pm lm ea k)
          c2 fm)
        r.1.day
        (fun k => decide_day_mono _ _ _ _ _ h12)
        hpad
      rw [trackingDayLabels, hmono, hts]
    · rw [tracking, if_neg hc] at h2
      cases h2
  · intro quadratic s daytime freqSeconds c1 c2 mh pm ts h12 hmem
    rcases List.mem_map.mp hmem with ⟨r, hr, heq⟩
    injection heq with hts hpad
    refine List.mem_map.mpr ⟨r, hr, ?_⟩
    rw [fixedDayLabels] at hpad
    have hmono := padLookup_mono (dayKeys (maskedHigh s daytime pm))
      (fun k => fixed_decide
        (fixedDayScore quadratic s daytime freqSeconds mh pm k) c1)
      (fun k => fixed_decide
        (fixedDayScore quadratic s daytime freqSeconds mh pm k) c2)
      r.1.day
      (fun k => fixed_decide_mono _ _ _ h12)
      hpad
    rw [fixedDayLabels, hmono, hts]

/-- C4 witness: a concrete day passing both gate conditions, on which the
conditional evaluator returns the external fit's score. -/
theorem C4_conditional_fit_gate_witness :
    tracking_gate 3600 5 1 [((⟨0, 0⟩ : Ts), (2 : ℚ))] = true
    ∧ fit_if (tracking_gate 3600 5 1) (fun _ => 7) 0
        [((⟨0, 0⟩ : Ts), (2 : ℚ))] = 7 := by
  have h : tracking_gate 3600 5 1 [((⟨0, 0⟩ : Ts), (2 : ℚ))] = true := by
    norm_num [tracking_gate, hours, freqstr_to_hours, maxGe, List.max?]
  exact ⟨h, ((C4_conditional_fit_gate 3600 5 1 _ (fun _ => 7) 0).2.1 h).trans
    rfl⟩

/-- One sunny day at hourly spacing, labeled `True` under the default and a
lowered `correlation_min` alike. -/
def c7_series : Series :=
  ⟨0, [(⟨1, 600⟩, 10), (⟨1, 660⟩, 10), (⟨1, 720⟩, 10)]⟩

/-- C7 witness: on a concrete series, a timestamp `True` at
`correlation_min = 0.94` stays `True` at the lowered threshold `0.9`. -/
theorem C7_correlation_min_monotone_witness :
    ((9 : ℚ) / 10 ≤ 94 / 100)
    ∧ tracking (fun _ => (95 / 100 : ℚ)) (fun _ => (1 / 2 : ℚ)) c7_series
        (fun _ => true) 3600 (94 / 100) (96 / 100) 5 (1 / 10) 525 1035
      = .ok ⟨0, [(⟨1, 600⟩, true), (⟨1, 660⟩, true), (⟨1, 720⟩, true)]⟩
    ∧ tracking (fun _ => (95 / 100 : ℚ)) (fun _ => (1 / 2 : ℚ)) c7_series
        (fun _ => true) 3600 (9 / 10) (96 / 100) 5 (1 / 10) 525 1035
      = .ok ⟨0, [(⟨1, 600⟩, true), (⟨1, 660⟩, true), (⟨1, 720⟩, true)]⟩
    ∧ (⟨⟨1, 600⟩, true⟩ : Ts × Bool)
        ∈ (⟨0, [(⟨1, 600⟩, true), (⟨1, 660⟩, true), (⟨1, 720⟩, true)]⟩
            : BSeries).rows := by
  have h2 : tracking (fun _ => (95 / 100 : ℚ)) (fun _ => (1 / 2 : ℚ))
      c7_series (fun _ => true) 3600 (94 / 100) (96 / 100) 5 (1 / 10) 525
      1035
      = .ok ⟨0, [(⟨1, 600⟩, true), (⟨1, 660⟩, true), (⟨1, 720⟩, true)]⟩ := by
    norm_num [tracking, trackingDayLabels, trackingDayScore,
      trackingWindowScore, tracking_gate, maxGe, fit_if, decide_day, hours,
      freqstr_to_hours, padLookup, dayKeys, insertKey, rowsOnDay, maskedHigh,
      filter_low, mean, positiveMean, between_time, c7_series, List.filter,
      List.foldl, List.max?, max_def]
  have h1 : tracking (fun _ => (95 / 100 : ℚ)) (fun _ => (1 / 2 : ℚ))
      c7_series (fun _ => true) 3600 (9 / 10) (96 / 100) 5 (1 / 10) 525 1035
      = .ok ⟨0, [(⟨1, 600⟩, true), (⟨1, 660⟩, true), (⟨1, 720⟩, true)]⟩ := by
    norm_num [tracking, trackingDayLabels, trackingDayScore,
      trackingWindowScore, tracking_gate, maxGe, fit_if, decide_day, hours,
      freqstr_to_hours, padLookup, dayKeys, insertKey, rowsOnDay, maskedHigh,
      filter_low, mean, positiveMean, between_time, c7_series, List.filter,
      List.foldl, List.max?, max_def]
  exact ⟨by norm_num, h2, h1,
    C7_correlation_min_monotone.1 _ _ _ _ _ _ _ _ _ _ _ _ _ _ _
      (by norm_num) h2 h1 (by decide)⟩

/-- C8 witness: a gated day whose external fit fails; the evaluator
propagates the failure and the group-wise application yields no result. -/
theorem C8_fit_failure_propagates_witness :
    fit_ifE (fun _ => true) (fun _ => .error "singular") 0 []
      = .error "singular"
    ∧ applyDaysE (fit_ifE (fun _ => true) (fun _ => .error "singular") 0)
        [((1 : ℤ), ([] : List (Ts × ℚ)))] ≠ .ok [] := by
  exact ⟨C8_fit_failure_propagates.1 _ _ _ _ _ rfl rfl,
    C8_fit_failure_propagates.2 _ _ _ _ 1 [] "singular"
      (List.mem_singleton.mpr rfl) rfl rfl []⟩

end Orientation
